import Mathlib

/-!
# Verification of the ai-agent repository's dispatch, validation and provider logic

This file is a shallow embedding, in Lean 4, of the core logic of a small
Python conversational agent:

* `src/agent/base.py` — keyword-rule dispatcher (`MessageHandler`,
  `AIAgent._init_handlers`, `AIAgent._generate_response`), conversation
  history (a `collections.deque` with `maxlen`), `AIAgent.clear_history`,
  `AIAgent._format_location_name`, `AIAgent.process_message`;
* `src/utils/validators.py` — `validate_message`, `validate_user_id`;
* `src/utils/weather.py` — `WeatherService.get_weather` and its fallback;
* `src/utils/news.py` — `NewsService.get_headlines` and its helpers;
* `src/agent/responses.py` — the static response tables.

Python strings are modelled as Lean `String` (ASCII-faithful: `str.lower`,
`str.capitalize`, `str.strip`, `str.isalnum` are modelled by the
corresponding ASCII operations `Char.toLower`, `Char.toUpper`,
`String.trim`, `Char.isAlphanum`).  Network I/O is modelled by passing the
outcome of each HTTP request (success with a payload, HTTP-level error, or
raised exception) as an explicit parameter; `random.choice` over a fixed
list is modelled by passing the chosen index as an explicit parameter.
Python exceptions are modelled with `Except`.
-/

/-! ## String helpers shared by several components -/

/-- Python `s.lower()` (ASCII model): lowercase every character.  Defined
on the underlying character list so that it evaluates by kernel
reduction. -/
def pyLower (s : String) : String := String.mk (s.data.map Char.toLower)

/-- Bool-valued substring test on character lists: Python's `needle in hay`.
`infixOf needle hay` is true iff `needle` occurs contiguously in `hay`. -/
def infixOf (needle : List Char) : List Char → Bool
  | [] => needle.isEmpty
  | c :: rest => needle.isPrefixOf (c :: rest) || infixOf needle rest

/-- `infixOf` agrees with the mathematical substring relation `<:+:`. -/
theorem infixOf_iff_isInfix (needle hay : List Char) :
    infixOf needle hay = true ↔ needle <:+: hay := by
  induction hay with
  | nil =>
    constructor
    · intro h
      have : needle = [] := by
        simpa [infixOf, List.isEmpty_iff] using h
      simp [this]
    · intro h
      have : needle = [] := List.eq_nil_of_infix_nil h
      simp [this, infixOf]
  | cons c rest ih =>
    simp only [infixOf, Bool.or_eq_true, List.isPrefixOf_iff_prefix, ih,
      List.infix_cons_iff]

/-! ## Dispatcher (`src/agent/base.py`)

`MessageHandler.matches` lowercases the message and checks that all
(`require_all = True`) or at least one (`require_all = False`) of the
keywords occur as substrings.  `AIAgent._generate_response` walks the
handler list built by `_init_handlers` in order and returns the result of
the first handler that matches; when none matches it returns
`ResponseGenerator.get_default_response()`, a uniformly random element of
`DEFAULT_RESPONSES`.  Each handler's network-dependent behaviour is
abstracted into a function `run : HandlerId → String` giving the text the
selected handler produces. -/

/-- Identifies the six handlers installed by `AIAgent._init_handlers`,
in their priority order. -/
inductive HandlerId where
  | weatherJoke
  | weatherInfo
  | joke
  | greeting
  | help
  | news
deriving DecidableEq, Repr

/-- `MessageHandler` from `src/agent/base.py`: keywords, match policy and
(the identity of) the handler function. -/
structure MessageHandler where
  keywords : List String
  handler : HandlerId
  requireAll : Bool
deriving DecidableEq, Repr

/-- `MessageHandler.matches`: lowercase the message, then require all
keywords (ALL policy) or at least one keyword (ANY policy) to be a
substring. -/
def MessageHandler.matches (h : MessageHandler) (message : String) : Bool :=
  let messageLower := pyLower message
  if h.requireAll then
    h.keywords.all (fun keyword => infixOf keyword.data messageLower.data)
  else
    h.keywords.any (fun keyword => infixOf keyword.data messageLower.data)

/-- The ordered handler list built by `AIAgent._init_handlers`. -/
def handlers : List MessageHandler :=
  [ { keywords := ["weather", "joke"], handler := .weatherJoke, requireAll := true },
    { keywords := ["weather", "forecast", "temperature"], handler := .weatherInfo, requireAll := false },
    { keywords := ["joke", "funny", "humor", "laugh"], handler := .joke, requireAll := false },
    { keywords := ["hello", "hi", "hey", "greetings"], handler := .greeting, requireAll := false },
    { keywords := ["help", "commands", "what can you do"], handler := .help, requireAll := false },
    { keywords := ["news", "headlines", "current events"], handler := .news, requireAll := false } ]

/-- `DEFAULT_RESPONSES` from `src/agent/responses.py`. -/
def DEFAULT_RESPONSES : List String :=
  [ "I'm not sure I understand. Could you try asking differently?",
    "That's interesting! Tell me more about that.",
    "I'm still learning! Could you rephrase your question?",
    "Hmm, I'm not quite sure how to respond to that yet.",
    "I appreciate your message! Could you clarify what you'd like help with?" ]

/-- The handler selected by the `for handler in self.handlers` loop of
`AIAgent._generate_response`: the first handler whose `matches` is true. -/
def selectHandler (message : String) : Option MessageHandler :=
  handlers.find? (fun h => h.matches message)

/-- `AIAgent._generate_response`, with the selected handler's output
abstracted as `run` and the uniform draw of
`ResponseGenerator.get_default_response` (Python `random.choice`) passed as
the chosen index `r`. -/
def generate_response (run : HandlerId → String)
    (r : Fin DEFAULT_RESPONSES.length) (message : String) : String :=
  match selectHandler message with
  | some h => run h.handler
  | none => DEFAULT_RESPONSES.get r

/-- Spec-level matching predicate (§4.1 of the spec): after lowercasing the
input, all keywords are substrings (ALL policy) or at least one is
(ANY policy). -/
def ruleMatchesSpec (h : MessageHandler) (message : String) : Prop :=
  if h.requireAll then ∀ k ∈ h.keywords, k.data <:+: (pyLower message).data
  else ∃ k ∈ h.keywords, k.data <:+: (pyLower message).data

instance (h : MessageHandler) (message : String) :
    Decidable (ruleMatchesSpec h message) := by
  unfold ruleMatchesSpec; infer_instance

/-- The code's `MessageHandler.matches` decides exactly the spec-level
matching predicate. -/
theorem matches_iff_ruleMatchesSpec (h : MessageHandler) (message : String) :
    h.matches message = true ↔ ruleMatchesSpec h message := by
  unfold MessageHandler.matches ruleMatchesSpec
  cases hra : h.requireAll <;>
    simp [List.all_eq_true, List.any_eq_true, infixOf_iff_isInfix]

/-- `List.find?` returns the element at the first index satisfying the
predicate. -/
theorem find?_eq_of_first_index {α : Type} (p : α → Bool) (l : List α) (i : Nat)
    (hi : i < l.length) (hp : p (l.get ⟨i, hi⟩) = true)
    (hlt : ∀ j (hj : j < i), p (l.get ⟨j, Nat.lt_trans hj hi⟩) = false) :
    l.find? p = some (l.get ⟨i, hi⟩) := by
  induction l generalizing i with
  | nil => simp at hi
  | cons a t ih =>
    cases i with
    | zero =>
      simp only [List.get] at hp
      simp [List.find?, hp]
    | succ n =>
      have ha : p a = false := hlt 0 (Nat.succ_pos n)
      have hi' : n < t.length := Nat.lt_of_succ_lt_succ hi
      simp only [List.get] at hp ⊢
      rw [List.find?_cons_of_neg _ (by simp [ha])]
      exact ih n hi' hp (fun j hj => hlt (j + 1) (Nat.succ_lt_succ hj))

/-- C1: every message that contains both `"weather"` and `"joke"` after
lowercasing is dispatched to the combined weather-joke handler (the
ALL-policy rule with keywords `["weather", "joke"]`), which is first in the
handler list, rather than to the weather-only or joke-only handler. -/
theorem weather_joke_combined_handler_selected (message : String)
    (hw : "weather".data <:+: (pyLower message).data)
    (hj : "joke".data <:+: (pyLower message).data) :
    (selectHandler message).map (fun h => h.handler) = some HandlerId.weatherJoke := by
  have hw' : infixOf "weather".data (pyLower message).data = true :=
    (infixOf_iff_isInfix _ _).mpr hw
  have hj' : infixOf "joke".data (pyLower message).data = true :=
    (infixOf_iff_isInfix _ _).mpr hj
  have hmatch :
      MessageHandler.matches
        { keywords := ["weather", "joke"], handler := .weatherJoke, requireAll := true }
        message = true := by
    simp [MessageHandler.matches, hw', hj']
  have hsel : selectHandler message =
      some { keywords := ["weather", "joke"], handler := .weatherJoke, requireAll := true } := by
    unfold selectHandler handlers
    exact List.find?_cons_of_pos _ hmatch
  simp [hsel]

/-- Witness for C1 at the concrete input `"Tell me a WEATHER Joke!"`. -/
theorem weather_joke_combined_handler_selected_witness :
    (selectHandler "Tell me a WEATHER Joke!").map (fun h => h.handler) =
      some HandlerId.weatherJoke :=
  weather_joke_combined_handler_selected "Tell me a WEATHER Joke!"
    (by decide) (by decide)

/-- C2: the dispatcher evaluates the ordered rule list where a rule matches
iff, after lowercasing the input, all of its keywords are substrings (ALL
policy) or at least one is (ANY policy); the first matching rule's handler
result is returned, and when no rule matches the result is the element of
the fixed default-response set picked by the uniform random draw `r`. -/
theorem generate_response_dispatch_spec (run : HandlerId → String)
    (r : Fin DEFAULT_RESPONSES.length) (message : String) :
    (∀ h ∈ handlers, (h.matches message = true ↔ ruleMatchesSpec h message)) ∧
    ((∀ h ∈ handlers, ¬ ruleMatchesSpec h message) →
      generate_response run r message = DEFAULT_RESPONSES.get r) ∧
    (∀ i (hi : i < handlers.length),
      ruleMatchesSpec (handlers.get ⟨i, hi⟩) message →
      (∀ j (hj : j < i), ¬ ruleMatchesSpec (handlers.get ⟨j, Nat.lt_trans hj hi⟩) message) →
      generate_response run r message = run (handlers.get ⟨i, hi⟩).handler) := by
  refine ⟨fun h _ => matches_iff_ruleMatchesSpec h message, ?_, ?_⟩
  · intro hnone
    have hfind : handlers.find? (fun h => h.matches message) = none := by
      rw [List.find?_eq_none]
      intro x hx hpx
      exact hnone x hx ((matches_iff_ruleMatchesSpec x message).mp hpx)
    simp [generate_response, selectHandler, hfind]
  · intro i hi hmi hlt
    have hfind :
        handlers.find? (fun h => h.matches message) = some (handlers.get ⟨i, hi⟩) := by
      refine find?_eq_of_first_index _ handlers i hi
        ((matches_iff_ruleMatchesSpec _ message).mpr hmi) (fun j hj => ?_)
      have := hlt j hj
      rw [← matches_iff_ruleMatchesSpec] at this
      simpa using this
    simp [generate_response, selectHandler, hfind]

/-- Witness for C2: on the unmatched input `"qqq"` the dispatcher returns
the drawn default response. -/
theorem generate_response_dispatch_spec_witness :
    generate_response (fun _ => "") ⟨0, by decide⟩ "qqq" =
      DEFAULT_RESPONSES.get ⟨0, by decide⟩ :=
  (generate_response_dispatch_spec (fun _ => "") ⟨0, by decide⟩ "qqq").2.1
    (by decide)

/-! ## Conversation history (`src/agent/base.py`)

`AIAgent.__init__` creates `conversation_history = deque(maxlen=max_history)`.
`AIAgent._add_to_history` builds an entry dict
`{timestamp, user_id, message, response}` and appends it; the `deque`
silently evicts its leftmost (oldest) element when full.
`AIAgent.clear_history(user_id)` rebuilds the deque from the entries whose
`user_id` differs (note: Python `if user_id:` treats `None` *and the empty
string* as falsy, taking the clear-everything branch). -/

/-- A conversation history entry as built by `AIAgent._add_to_history`. -/
structure HistoryEntry where
  timestamp : String
  user_id : String
  message : String
  response : String
deriving DecidableEq, Repr

/-- Appending to a Python `collections.deque` with `maxlen = m`: the new
element goes on the right and, if the buffer would exceed `m` elements,
elements are evicted from the left. -/
def dequeAppend (m : Nat) (buf : List HistoryEntry) (e : HistoryEntry) : List HistoryEntry :=
  if m < (buf ++ [e]).length then (buf ++ [e]).drop ((buf ++ [e]).length - m)
  else buf ++ [e]

/-- Constructing a Python `collections.deque` with `maxlen = m` from an
iterable: only the last `m` elements are kept. -/
def dequeOfList (m : Nat) (l : List HistoryEntry) : List HistoryEntry :=
  if m < l.length then l.drop (l.length - m) else l

/-- `AIAgent.clear_history`: with a truthy `user_id`, rebuild the deque from
the entries of the other users; with `None` or the falsy empty string,
clear everything. -/
def clear_history (m : Nat) (buf : List HistoryEntry) (user_id : Option String) :
    List HistoryEntry :=
  match user_id with
  | some u =>
    if u.isEmpty then []
    else dequeOfList m (buf.filter (fun entry => entry.user_id != u))
  | none => []

/-- One append keeps the buffer within its bound. -/
theorem dequeAppend_length_le (m : Nat) (buf : List HistoryEntry) (e : HistoryEntry)
    (h : buf.length ≤ m) : (dequeAppend m buf e).length ≤ m := by
  unfold dequeAppend
  split
  · rename_i hc
    simp only [List.length_drop, List.length_append, List.length_cons,
      List.length_nil] at *
    omega
  · rename_i hc
    simp only [List.length_append, List.length_cons, List.length_nil] at *
    omega

/-- C3: starting from any buffer within its configured bound `m`, any
sequence of appends leaves the buffer's length at most `m`; an append to a
non-full buffer just appends on the right, and an append to a full
(non-empty) buffer evicts exactly the oldest (leftmost) entry — FIFO
eviction. -/
theorem history_bounded_and_fifo (m : Nat) (init es : List HistoryEntry)
    (buf : List HistoryEntry) (e : HistoryEntry) (hinit : init.length ≤ m) :
    (es.foldl (fun b x => dequeAppend m b x) init).length ≤ m ∧
    (buf.length < m → dequeAppend m buf e = buf ++ [e]) ∧
    (buf.length = m → 0 < m → dequeAppend m buf e = buf.tail ++ [e]) := by
  refine ⟨?_, ?_, ?_⟩
  · induction es generalizing init with
    | nil => simpa using hinit
    | cons x xs ih =>
      simpa using ih (dequeAppend m init x) (dequeAppend_length_le m init x hinit)
  · intro hlt
    unfold dequeAppend
    rw [if_neg]
    simp only [List.length_append, List.length_cons, List.length_nil]
    omega
  · intro hfull hpos
    unfold dequeAppend
    rw [if_pos (by simp; omega)]
    have h1 : (buf ++ [e]).length - m = 1 := by simp; omega
    rw [h1, List.drop_one, ← List.drop_one]
    cases buf with
    | nil => simp at hfull; omega
    | cons a t => simp

/-- Witness for C3 at `m = 2` with three concrete appends: the buffer stays
within the bound, and the eviction equations hold at concrete buffers. -/
theorem history_bounded_and_fifo_witness :
    (([⟨"t1", "u", "m1", "r1"⟩, ⟨"t2", "u", "m2", "r2"⟩,
       ⟨"t3", "u", "m3", "r3"⟩] : List HistoryEntry).foldl
        (fun b x => dequeAppend 2 b x) []).length ≤ 2 ∧
    dequeAppend 2 [⟨"t1", "u", "m1", "r1"⟩] ⟨"t2", "u", "m2", "r2"⟩ =
      [⟨"t1", "u", "m1", "r1"⟩, ⟨"t2", "u", "m2", "r2"⟩] ∧
    dequeAppend 2 [⟨"t1", "u", "m1", "r1"⟩, ⟨"t2", "u", "m2", "r2"⟩]
        ⟨"t3", "u", "m3", "r3"⟩ =
      [⟨"t2", "u", "m2", "r2"⟩, ⟨"t3", "u", "m3", "r3"⟩] :=
  ⟨(history_bounded_and_fifo 2
      [] [⟨"t1", "u", "m1", "r1"⟩, ⟨"t2", "u", "m2", "r2"⟩, ⟨"t3", "u", "m3", "r3"⟩]
      [] ⟨"t1", "u", "m1", "r1"⟩ (by decide)).1,
   (history_bounded_and_fifo 2 [] [] [⟨"t1", "u", "m1", "r1"⟩]
      ⟨"t2", "u", "m2", "r2"⟩ (by decide)).2.1 (by decide),
   (history_bounded_and_fifo 2 [] []
      [⟨"t1", "u", "m1", "r1"⟩, ⟨"t2", "u", "m2", "r2"⟩]
      ⟨"t3", "u", "m3", "r3"⟩ (by decide)).2.2 (by decide) (by decide)⟩

/-- A fixed history entry belonging to user `"alice"`. -/
def entryAlice : HistoryEntry :=
  { timestamp := "t0", user_id := "alice", message := "hi", response := "hello" }

/-- C5 counterexample: `clear_history` with the empty-string user identifier
`u = ""` does NOT remove only the entries with `user_id = ""` — Python's
`if user_id:` treats `""` as falsy and takes the clear-everything branch,
so `entryAlice` (whose `user_id` is `"alice" ≠ ""`) is removed as well,
contradicting the claim that every entry of a different user remains. -/
theorem clear_history_empty_user_counterexample :
    clear_history 10 [entryAlice] (some "") = [] ∧ entryAlice.user_id ≠ "" := by
  constructor
  · rfl
  · decide

/-- C5 (amended to non-empty user identifiers): for every buffer within its
bound and every NON-EMPTY user identifier `u`, `clear_history` keeps the
surviving entries in their original relative order (the result is a
sublist), keeps no entry of user `u`, and keeps every entry of any other
user with its original multiplicity. -/
theorem clear_history_removes_exactly_user (m : Nat) (buf : List HistoryEntry)
    (u : String) (hu : u ≠ "") (hlen : buf.length ≤ m) :
    (clear_history m buf (some u)).Sublist buf ∧
    (∀ e ∈ clear_history m buf (some u), e.user_id ≠ u) ∧
    (∀ e : HistoryEntry, e.user_id ≠ u →
      (clear_history m buf (some u)).count e = buf.count e) := by
  have hne : u.isEmpty = false := by
    cases hiu : u.isEmpty
    · rfl
    · exact absurd ((String.isEmpty_iff u).mp hiu) hu
  have hres : clear_history m buf (some u) =
      buf.filter (fun entry => entry.user_id != u) := by
    unfold clear_history dequeOfList
    simp only [hne, Bool.false_eq_true, if_false]
    rw [if_neg]
    have := List.length_filter_le (fun entry => entry.user_id != u) buf
    omega
  refine ⟨?_, ?_, ?_⟩
  · rw [hres]; exact List.filter_sublist buf
  · intro e he
    rw [hres] at he
    have := (List.mem_filter.mp he).2
    simpa using this
  · intro e he
    rw [hres]
    exact List.count_filter (by simpa using he)

/-- Witness for C5 at a concrete buffer: clearing user `"bob"` leaves
`entryAlice` (user `"alice"`) in place with its multiplicity. -/
theorem clear_history_removes_exactly_user_witness :
    (clear_history 10 [entryAlice] (some "bob")).Sublist [entryAlice] ∧
    (clear_history 10 [entryAlice] (some "bob")).count entryAlice =
      ([entryAlice] : List HistoryEntry).count entryAlice :=
  ⟨(clear_history_removes_exactly_user 10 [entryAlice] "bob" (by decide) (by decide)).1,
   (clear_history_removes_exactly_user 10 [entryAlice] "bob" (by decide)
      (by decide)).2.2 entryAlice (by decide)⟩

/-! ## Input validators (`src/utils/validators.py`)

A Python argument that may be `None`, a string, or any other object is
modelled by `PyValue`.  `str.strip()` is modelled by `pyStrip` (ASCII
whitespace).  A raised `ValidationError` is modelled by `Except.error`
carrying the error message. -/

/-- A Python value passed to a validator: `None`, a string, or any
non-string object. -/
inductive PyValue where
  | none
  | str (s : String)
  | nonString
deriving DecidableEq, Repr

/-- Python `s.strip()` (ASCII model): drop whitespace from both ends. -/
def pyStrip (s : String) : String :=
  String.mk (((s.data.dropWhile Char.isWhitespace).reverse.dropWhile
    Char.isWhitespace).reverse)

/-- `Config.MAX_MESSAGE_LENGTH` default from `src/config.py`. -/
def MAX_MESSAGE_LENGTH : Nat := 5000

/-- `validate_message` from `src/utils/validators.py`.  A raised
`ValidationError` is `Except.error`; success returns the stripped
message (the code's `(True, message)`). -/
def validate_message (message : PyValue)
    (max_length : Nat := MAX_MESSAGE_LENGTH) : Except String String :=
  match message with
  | .none => .error "Message cannot be None"
  | .nonString => .error "Message must be a string"
  | .str s =>
    let t := pyStrip s
    if t.isEmpty then .error "Message cannot be empty"
    else if max_length < t.length then
      .error ("Message exceeds maximum length of " ++ toString max_length
        ++ " characters")
    else .ok t

/-- C6 counterexample: the input `" abc "` has length `5`, which exceeds the
configured maximum `3`, yet `validate_message` accepts it (the code strips
before measuring), contradicting the claim that every input whose length
exceeds the configured maximum is rejected. -/
theorem validate_message_overlength_counterexample :
    (" abc " : String).length = 5 ∧ 3 < 5 ∧
    validate_message (PyValue.str " abc ") 3 = Except.ok "abc" := by
  refine ⟨by decide, by decide, rfl⟩

/-- C6 (amended: the length bound applies to the *stripped* message):
`validate_message` rejects `None`, non-strings, messages that strip to
empty (empty or whitespace-only), and messages whose stripped length
exceeds the maximum; every other string is accepted and returned
stripped of leading and trailing whitespace. -/
theorem validate_message_spec (max_length : Nat) (s : String) :
    (∃ e, validate_message PyValue.none max_length = Except.error e) ∧
    (∃ e, validate_message PyValue.nonString max_length = Except.error e) ∧
    ((pyStrip s).isEmpty = true →
      ∃ e, validate_message (PyValue.str s) max_length = Except.error e) ∧
    (max_length < (pyStrip s).length →
      ∃ e, validate_message (PyValue.str s) max_length = Except.error e) ∧
    ((pyStrip s).isEmpty = false → (pyStrip s).length ≤ max_length →
      validate_message (PyValue.str s) max_length = Except.ok (pyStrip s)) := by
  refine ⟨⟨_, rfl⟩, ⟨_, rfl⟩, ?_, ?_, ?_⟩
  · intro h
    refine ⟨"Message cannot be empty", ?_⟩
    simp [validate_message, h]
  · intro h
    by_cases he : (pyStrip s).isEmpty
    · refine ⟨"Message cannot be empty", ?_⟩
      simp [validate_message, he]
    · refine ⟨"Message exceeds maximum length of " ++ toString max_length
        ++ " characters", ?_⟩
      unfold validate_message
      simp only [Bool.not_eq_true] at he
      simp only [he, Bool.false_eq_true, if_false]
      rw [if_pos h]
  · intro he hl
    unfold validate_message
    simp only [he, Bool.false_eq_true, if_false]
    rw [if_neg (by omega)]

/-- Witness for C6's amended theorem: `" hi "` is accepted and stripped at
maximum `5`, and `"abcd"` is rejected at maximum `3`. -/
theorem validate_message_spec_witness :
    validate_message (PyValue.str " hi ") 5 = Except.ok "hi" ∧
    (∃ e, validate_message (PyValue.str "abcd") 3 = Except.error e) := by
  constructor
  · have h := (validate_message_spec 5 " hi ").2.2.2.2 (by decide) (by decide)
    have hs : pyStrip " hi " = "hi" := by decide
    rw [hs] at h
    exact h
  · exact (validate_message_spec 3 "abcd").2.2.2.1 (by decide)

/-- Python `c.isalnum()` (ASCII model). -/
def pyIsAlnum (c : Char) : Bool := c.isAlphanum

/-- The character test of `validate_user_id`:
`c.isalnum() or c in ('-', '_')`. -/
def validUserChar (c : Char) : Bool := pyIsAlnum c || c == '-' || c == '_'

/-- `validate_user_id` from `src/utils/validators.py`.  Python's
`if not user_id or not isinstance(user_id, str)` rejects `None`,
non-strings and the falsy empty string; the remaining checks run on the
stripped string. -/
def validate_user_id (user_id : PyValue) : Except String String :=
  match user_id with
  | .none => .error "User ID must be a non-empty string"
  | .nonString => .error "User ID must be a non-empty string"
  | .str s =>
    if s.isEmpty then .error "User ID must be a non-empty string"
    else
      let t := pyStrip s
      if t.isEmpty then .error "User ID cannot be empty"
      else if 255 < t.length then
        .error "User ID exceeds maximum length of 255 characters"
      else if t.data.all validUserChar then .ok t
      else .error "User ID contains invalid characters"

/-- C7 counterexample: `" abc "` contains the space character, which is not
alphanumeric, a dash, or an underscore, yet `validate_user_id` accepts it
(the code strips before checking the character set), contradicting the
claim that every such input is rejected. -/
theorem validate_user_id_charset_counterexample :
    validate_user_id (PyValue.str " abc ") = Except.ok "abc" ∧
    (' ' ∈ (" abc " : String).data ∧ validUserChar ' ' = false) := by
  refine ⟨rfl, by decide, by decide⟩

/-- C7 (amended: the checks apply to the *stripped* user id):
`validate_user_id` rejects `None`, non-strings, ids that strip to empty,
ids whose stripped form is longer than 255 characters, and ids whose
stripped form contains a character other than alphanumeric, dash or
underscore; every other string is accepted and returned stripped. -/
theorem validate_user_id_spec (s : String) :
    (∃ e, validate_user_id PyValue.none = Except.error e) ∧
    (∃ e, validate_user_id PyValue.nonString = Except.error e) ∧
    ((pyStrip s).isEmpty = true →
      ∃ e, validate_user_id (PyValue.str s) = Except.error e) ∧
    (255 < (pyStrip s).length →
      ∃ e, validate_user_id (PyValue.str s) = Except.error e) ∧
    ((pyStrip s).data.all validUserChar = false →
      ∃ e, validate_user_id (PyValue.str s) = Except.error e) ∧
    ((pyStrip s).isEmpty = false → (pyStrip s).length ≤ 255 →
      (pyStrip s).data.all validUserChar = true →
      validate_user_id (PyValue.str s) = Except.ok (pyStrip s)) := by
  by_cases hs : s.isEmpty
  · have hstrip : pyStrip s = "" := by
      rw [(String.isEmpty_iff s).mp hs]
      rfl
    refine ⟨⟨_, rfl⟩, ⟨_, rfl⟩, ?_, ?_, ?_, ?_⟩
    · intro _
      exact ⟨"User ID must be a non-empty string", by simp [validate_user_id, hs]⟩
    · intro h
      rw [hstrip] at h
      simp at h
    · intro _
      exact ⟨"User ID must be a non-empty string", by simp [validate_user_id, hs]⟩
    · intro hne _ _
      rw [hstrip] at hne
      exact absurd hne (by decide)
  · simp only [Bool.not_eq_true] at hs
    refine ⟨⟨_, rfl⟩, ⟨_, rfl⟩, ?_, ?_, ?_, ?_⟩
    · intro h
      refine ⟨"User ID cannot be empty", ?_⟩
      simp [validate_user_id, hs, h]
    · intro h
      by_cases he : (pyStrip s).isEmpty
      · refine ⟨"User ID cannot be empty", ?_⟩
        simp [validate_user_id, hs, he]
      · refine ⟨"User ID exceeds maximum length of 255 characters", ?_⟩
        simp only [Bool.not_eq_true] at he
        unfold validate_user_id
        simp only [hs, Bool.false_eq_true, if_false, he]
        rw [if_pos h]
    · intro h
      by_cases he : (pyStrip s).isEmpty
      · refine ⟨"User ID cannot be empty", ?_⟩
        simp [validate_user_id, hs, he]
      · by_cases hl : 255 < (pyStrip s).length
        · refine ⟨"User ID exceeds maximum length of 255 characters", ?_⟩
          simp only [Bool.not_eq_true] at he
          unfold validate_user_id
          simp only [hs, Bool.false_eq_true, if_false, he]
          rw [if_pos hl]
        · refine ⟨"User ID contains invalid characters", ?_⟩
          unfold validate_user_id
          simp only [Bool.not_eq_true] at he
          simp only [hs, Bool.false_eq_true, if_false, he, h]
          rw [if_neg hl]
    · intro he hl hall
      unfold validate_user_id
      simp only [hs, Bool.false_eq_true, if_false, he, hall, if_true]
      rw [if_neg (by omega)]

/-- Witness for C7's amended theorem: `" user-1_x "` is accepted and
stripped, and `"user name"` (inner space survives stripping) is
rejected. -/
theorem validate_user_id_spec_witness :
    validate_user_id (PyValue.str " user-1_x ") = Except.ok "user-1_x" ∧
    (∃ e, validate_user_id (PyValue.str "user name") = Except.error e) := by
  constructor
  · have h := (validate_user_id_spec " user-1_x ").2.2.2.2.2
      (by decide) (by decide) (by decide)
    have hstrip : pyStrip " user-1_x " = "user-1_x" := by decide
    rw [hstrip] at h
    exact h
  · exact (validate_user_id_spec "user name").2.2.2.2.1 (by decide)

/-! ## Weather provider (`src/utils/weather.py`)

`WeatherService.get_weather` tries the OpenWeatherMap API when an API key
is configured (a non-200 status or any exception is logged and falls
through), then `wttr.in` (a non-200 status raises, and any exception is
caught), and finally returns the static `_get_fallback_weather` snapshot.
Each provider attempt is modelled by an `Except Unit WeatherData`
parameter: `.ok w` is a 200 response whose parsed payload is `w`, and
`.error ()` covers non-200 statuses, network errors and timeouts. -/

/-- The weather dict produced by `WeatherService` (keys of
`_parse_weather_data`, `_parse_wttr_data` and `_get_fallback_weather`). -/
structure WeatherData where
  temperature_f : Int
  temperature_c : Int
  feels_like_f : Int
  condition : String
  description : String
  humidity : Int
  wind_speed : Int
  location : String
deriving DecidableEq, Repr

/-- `WeatherService._get_fallback_weather`: the static fallback snapshot. -/
def get_fallback_weather : WeatherData :=
  { temperature_f := 72
    temperature_c := 22
    feels_like_f := 72
    condition := "Clear"
    description := "Clear sky"
    humidity := 50
    wind_speed := 5
    location := "Queens, NY" }

/-- `WeatherService.get_weather`: try OpenWeatherMap only when an API key
is present, then `wttr.in`, then the static fallback.  All provider
failures are absorbed; the function always returns a `WeatherData`. -/
def get_weather (api_key : Option String)
    (owmOutcome wttrOutcome : Except Unit WeatherData) : WeatherData :=
  let primary : Option WeatherData :=
    match api_key with
    | some _ =>
      match owmOutcome with
      | .ok w => some w
      | .error _ => Option.none
    | Option.none => Option.none
  match primary with
  | some w => w
  | Option.none =>
    match wttrOutcome with
    | .ok w => w
    | .error _ => get_fallback_weather

/-- C4: whatever the API-key configuration, when both the primary API and
the secondary source fail (non-200, network error or timeout — all
modelled by `.error ()`), `get_weather` returns normally (no exception
escapes: its result type is `WeatherData`, not `Except`) and yields the
static fallback snapshot with every field populated: 72 °F / 22 °C,
feels-like 72 °F, Clear / "Clear sky", 50 % humidity, wind 5 mph,
location "Queens, NY". -/
theorem get_weather_all_fail_fallback (api_key : Option String) :
    get_weather api_key (Except.error ()) (Except.error ()) = get_fallback_weather ∧
    get_fallback_weather.temperature_f = 72 ∧
    get_fallback_weather.temperature_c = 22 ∧
    get_fallback_weather.feels_like_f = 72 ∧
    get_fallback_weather.condition = "Clear" ∧
    get_fallback_weather.description = "Clear sky" ∧
    get_fallback_weather.humidity = 50 ∧
    get_fallback_weather.wind_speed = 5 ∧
    get_fallback_weather.location = "Queens, NY" := by
  refine ⟨?_, rfl, rfl, rfl, rfl, rfl, rfl, rfl, rfl⟩
  cases api_key <;> rfl

/-! ## Location normalizer (`AIAgent._format_location_name`)

The Python code lowercases and strips the location, collapses
`re.sub(r',\s+', ',', ...)` (a comma followed by a whitespace run becomes
a bare comma), looks the result up in the `location_names` gazetteer, then
retries with the text before the first comma, and otherwise title-cases
each comma-separated segment (`str.capitalize` per word, words split on
whitespace runs, rejoined with single spaces and `", "`). -/

/-- Python `str.strip()` on a character list. -/
def pyStripList (l : List Char) : List Char :=
  ((l.dropWhile Char.isWhitespace).reverse.dropWhile Char.isWhitespace).reverse

/-- `re.sub(r',\s+', ',', s)`: every comma followed by at least one
whitespace character has that whitespace run deleted.  The `Bool` state
records whether we are right after a comma (still deleting whitespace). -/
def collapseCommaSpaceAux : Bool → List Char → List Char
  | _, [] => []
  | skipWS, c :: rest =>
    if skipWS && c.isWhitespace then collapseCommaSpaceAux true rest
    else if c = ',' then ',' :: collapseCommaSpaceAux true rest
    else c :: collapseCommaSpaceAux false rest

/-- `re.sub(r',\s+', ',', s)` from the start of the string. -/
def collapseCommaSpace (l : List Char) : List Char := collapseCommaSpaceAux false l

/-- Python `s.split(sep)` for a single-character separator. -/
def splitOnChar (sep : Char) : List Char → List (List Char)
  | [] => [[]]
  | c :: rest =>
    if c = sep then [] :: splitOnChar sep rest
    else
      match splitOnChar sep rest with
      | [] => [[c]]
      | w :: ws => (c :: w) :: ws

/-- Python `s.split()` (no separator): split on whitespace runs, discarding
empty words.  `acc` accumulates the current word in reverse. -/
def pySplitWSAux (acc : List Char) : List Char → List (List Char)
  | [] => if acc.isEmpty then [] else [acc.reverse]
  | c :: rest =>
    if c.isWhitespace then
      if acc.isEmpty then pySplitWSAux [] rest
      else acc.reverse :: pySplitWSAux [] rest
    else pySplitWSAux (c :: acc) rest

/-- Python `s.split()` with no argument. -/
def pySplitWS (l : List Char) : List (List Char) := pySplitWSAux [] l

/-- Python `word.capitalize()` (ASCII model): first character uppercased,
the rest lowercased. -/
def pyCapitalize : List Char → List Char
  | [] => []
  | c :: rest => c.toUpper :: rest.map Char.toLower

/-- Python `sep.join(words)` on character lists. -/
def joinWith (sep : List Char) : List (List Char) → List Char
  | [] => []
  | [w] => w
  | w :: ws => w ++ sep ++ joinWith sep ws

/-- The `location_names` gazetteer of `AIAgent._format_location_name`. -/
def location_names : List (String × String) :=
  [ ("little neck,ny", "Little Neck, NY"), ("little neck", "Little Neck, NY"),
    ("huntington,ny", "Huntington, NY"), ("huntington", "Huntington, NY"),
    ("queens,ny", "Queens, NY"), ("queens", "Queens, NY"),
    ("manhattan,ny", "Manhattan, NY"), ("manhattan", "Manhattan, NY"),
    ("brooklyn,ny", "Brooklyn, NY"), ("brooklyn", "Brooklyn, NY"),
    ("bronx,ny", "Bronx, NY"), ("bronx", "Bronx, NY"),
    ("staten island,ny", "Staten Island, NY"), ("staten island", "Staten Island, NY"),
    ("new york,ny", "New York, NY"), ("new york", "New York, NY") ]

/-- Python dict lookup `location_names[key]` (keys are distinct, so an
association-list lookup is faithful). -/
def lookupLocationName (key : String) : Option String :=
  (location_names.find? (fun p => p.1 == key)).map (fun p => p.2)

/-- `location_normalized` in `_format_location_name`:
`re.sub(r',\s+', ',', location.lower().strip())`. -/
def normalizedLocation (location : String) : String :=
  String.mk (collapseCommaSpace (pyStrip (pyLower location)).data)

/-- `location_no_state` in `_format_location_name`:
`location_normalized.split(',')[0].strip()`. -/
def locationNoState (location : String) : String :=
  pyStrip (String.mk ((splitOnChar ',' (normalizedLocation location).data).headD []))

/-- The title-cased fallback of `_format_location_name`: split the ORIGINAL
argument on commas, per segment strip and split into words, capitalize
each word, rejoin with single spaces, and join the segments with `", "`. -/
def titleCaseSegments (location : String) : String :=
  String.mk (joinWith [',', ' ']
    ((splitOnChar ',' location.data).map (fun part =>
      joinWith [' '] ((pySplitWS (pyStripList part)).map pyCapitalize))))

/-- `AIAgent._format_location_name`. -/
def format_location_name (location : String) : String :=
  match lookupLocationName (normalizedLocation location) with
  | some name => name
  | Option.none =>
    match lookupLocationName (locationNoState location) with
    | some name => name
    | Option.none => titleCaseSegments location

/-- C8: `"queens"`, `"Queens, NY"` and `"queens,ny"` all format to the same
canonical display string `"Queens, NY"`, and every input that is in the
gazetteer neither under its normalized form nor with the trailing state
token removed is returned title-cased segment-by-segment (the function is
total — it never errors). -/
theorem format_location_name_spec (loc : String) :
    format_location_name "queens" = "Queens, NY" ∧
    format_location_name "Queens, NY" = "Queens, NY" ∧
    format_location_name "queens,ny" = "Queens, NY" ∧
    (lookupLocationName (normalizedLocation loc) = Option.none →
     lookupLocationName (locationNoState loc) = Option.none →
     format_location_name loc = titleCaseSegments loc) := by
  refine ⟨rfl, rfl, rfl, ?_⟩
  intro h1 h2
  unfold format_location_name
  rw [h1, h2]

/-- Witness for C8 at the unknown place `"springfield  gardens, zz"`:
both gazetteer lookups miss and the result is the segment-wise
title-casing. -/
theorem format_location_name_spec_witness :
    format_location_name "springfield  gardens, zz" = "Springfield Gardens, Zz" := by
  have h := (format_location_name_spec "springfield  gardens, zz").2.2.2
    (by decide) (by decide)
  rw [h]
  decide

/-! ## News provider (`src/utils/news.py`)

`NewsService.get_headlines` tries, when an API key is present, a local
NewsAPI search (`_fetch_local_news_from_newsapi`, where a non-200 status
returns `[]` but a network exception raises) and then the national NewsAPI
(`_fetch_from_newsapi`, where a non-200 status raises); any exception in
that block falls through to RSS.  The RSS block tries location-matched
feeds (`_fetch_from_local_rss`) and then the general feed list
(`_fetch_from_rss`, which walks the feeds in order and returns the first
feed yielding at least one article, raising when all fail); any exception
there yields `_get_fallback_news()`.  An HTTP response is modelled by
`HttpResult`; an RSS feed outcome is `Option (List NewsArticle)`
(`none` = fetch/parse failure, `some entries` = parsed entries). -/

/-- A news article dict as produced by `NewsService`. -/
structure NewsArticle where
  title : String
  description : String
  url : String
  source : String
  published_at : String
deriving DecidableEq, Repr

/-- Outcome of one HTTP request: a 200 response carrying parsed articles, a
non-200 status, or a raised network error / timeout. -/
inductive HttpResult where
  | success (articles : List NewsArticle)
  | httpError
  | netError
deriving DecidableEq, Repr

/-- The NewsAPI list-comprehension filter:
`article.get("title") and article.get("title") != "[Removed]"`. -/
def validTitle (a : NewsArticle) : Bool :=
  !(a.title == "") && !(a.title == "[Removed]")

/-- `NewsService._fetch_from_newsapi`: on 200 return the first `limit`
articles with valid titles; a non-200 status raises, as does a network
error. -/
def fetch_from_newsapi (limit : Nat) : HttpResult → Except Unit (List NewsArticle)
  | .success articles => .ok ((articles.take limit).filter validTitle)
  | .httpError => .error ()
  | .netError => .error ()

/-- `NewsService._fetch_local_news_from_newsapi`: on 200 with a non-empty
article list return the filtered page, on 200 with no articles or a
non-200 status return `[]`; a network error raises. -/
def fetch_local_news_from_newsapi (limit : Nat) :
    HttpResult → Except Unit (List NewsArticle)
  | .success articles =>
    .ok (if articles.isEmpty then [] else (articles.take limit).filter validTitle)
  | .httpError => .ok []
  | .netError => .error ()

/-- `NewsService._fetch_from_rss`: try each feed in order, skip failures
and feeds whose first `limit` entries are empty, return the first
non-empty page; raise (`"All RSS feeds failed"`) when the list is
exhausted. -/
def fetch_from_rss (limit : Nat) :
    List (Option (List NewsArticle)) → Except Unit (List NewsArticle)
  | [] => .error ()
  | Option.none :: feeds => fetch_from_rss limit feeds
  | some entries :: feeds =>
    if (entries.take limit).isEmpty then fetch_from_rss limit feeds
    else .ok (entries.take limit)

/-- `NewsService._fetch_from_local_rss`: when no local feed matches the
location the code returns `[]`; otherwise it delegates to
`_fetch_from_rss` on the matched feeds (which may raise).  `feeds` is the
matched `feeds_to_try` list. -/
def fetch_from_local_rss (limit : Nat)
    (feeds : List (Option (List NewsArticle))) : Except Unit (List NewsArticle) :=
  if feeds.isEmpty then .ok [] else fetch_from_rss limit feeds

/-- `NewsService._get_fallback_news`: a single synthetic
"service unavailable" article stamped with the current time. -/
def fallback_news (now : String) : List NewsArticle :=
  [{ title := "News service temporarily unavailable"
     description := "We're having trouble fetching the latest news. Please try again later."
     url := ""
     source := "System"
     published_at := now }]

/-- The NewsAPI try-block of `get_headlines`: local search first when a
local query is present (falling through to national headlines when it
yields nothing), national headlines otherwise; `.error` means some call
raised and control falls to the RSS block. -/
def newsapiSection (limit : Nat) (local_query : Option String)
    (localApi nationalApi : HttpResult) : Except Unit (List NewsArticle) :=
  match local_query with
  | some _ =>
    match fetch_local_news_from_newsapi limit localApi with
    | .ok articles =>
      if articles.isEmpty then fetch_from_newsapi limit nationalApi
      else .ok articles
    | .error e => .error e
  | Option.none => fetch_from_newsapi limit nationalApi

/-- The RSS try-block of `get_headlines`: local feeds first when a local
query is present (falling through to the general feeds when they yield
nothing), general feeds otherwise; `.error` means some call raised and
the static fallback article is returned. -/
def rssSectionResult (limit : Nat) (local_query : Option String)
    (localFeeds generalFeeds : List (Option (List NewsArticle))) :
    Except Unit (List NewsArticle) :=
  match local_query with
  | some _ =>
    match fetch_from_local_rss limit localFeeds with
    | .ok articles =>
      if articles.isEmpty then fetch_from_rss limit generalFeeds
      else .ok articles
    | .error e => .error e
  | Option.none => fetch_from_rss limit generalFeeds

/-- `NewsService.get_headlines`, assembled from the two try-blocks. -/
def get_headlines (limit : Nat) (local_query : Option String)
    (has_api_key : Bool) (localApi nationalApi : HttpResult)
    (localFeeds generalFeeds : List (Option (List NewsArticle)))
    (now : String) : List NewsArticle :=
  if has_api_key then
    match newsapiSection limit local_query localApi nationalApi with
    | .ok articles => articles
    | .error _ =>
      match rssSectionResult limit local_query localFeeds generalFeeds with
      | .ok articles => articles
      | .error _ => fallback_news now
  else
    match rssSectionResult limit local_query localFeeds generalFeeds with
    | .ok articles => articles
    | .error _ => fallback_news now

/-- Articles returned by `_fetch_from_newsapi` respect the page size. -/
theorem fetch_from_newsapi_ok_length (limit : Nat) (r : HttpResult)
    (articles : List NewsArticle)
    (h : fetch_from_newsapi limit r = .ok articles) : articles.length ≤ limit := by
  cases r with
  | success arts =>
    simp only [fetch_from_newsapi, Except.ok.injEq] at h
    subst h
    calc ((arts.take limit).filter validTitle).length
        ≤ (arts.take limit).length := List.length_filter_le _ _
      _ ≤ limit := by simp [List.length_take]
  | httpError => simp [fetch_from_newsapi] at h
  | netError => simp [fetch_from_newsapi] at h

/-- Articles returned by `_fetch_local_news_from_newsapi` respect the page
size. -/
theorem fetch_local_news_from_newsapi_ok_length (limit : Nat) (r : HttpResult)
    (articles : List NewsArticle)
    (h : fetch_local_news_from_newsapi limit r = .ok articles) :
    articles.length ≤ limit := by
  cases r with
  | success arts =>
    simp only [fetch_local_news_from_newsapi, Except.ok.injEq] at h
    subst h
    split
    · simp
    · calc ((arts.take limit).filter validTitle).length
          ≤ (arts.take limit).length := List.length_filter_le _ _
        _ ≤ limit := by simp [List.length_take]
  | httpError =>
    simp only [fetch_local_news_from_newsapi, Except.ok.injEq] at h
    subst h
    simp
  | netError => simp [fetch_local_news_from_newsapi] at h

/-- Articles returned by `_fetch_from_rss` respect the page size. -/
theorem fetch_from_rss_ok_length (limit : Nat)
    (feeds : List (Option (List NewsArticle))) (articles : List NewsArticle)
    (h : fetch_from_rss limit feeds = .ok articles) : articles.length ≤ limit := by
  induction feeds with
  | nil => simp [fetch_from_rss] at h
  | cons f rest ih =>
    cases f with
    | none => exact ih (by simpa [fetch_from_rss] using h)
    | some entries =>
      by_cases he : (entries.take limit).isEmpty
      · exact ih (by simpa [fetch_from_rss, he] using h)
      · have : Except.ok (ε := Unit) (entries.take limit) = .ok articles := by
          simpa [fetch_from_rss, he] using h
        simp only [Except.ok.injEq] at this
        subst this
        simp [List.length_take]

/-- A feed that fails outright (fetch/parse error) or yields zero articles
within the page size: `_fetch_from_rss` skips it and moves on. -/
def feedNoArticles (limit : Nat) : Option (List NewsArticle) → Bool
  | Option.none => true
  | some entries => (entries.take limit).isEmpty

/-- When every feed fails or yields zero articles, `_fetch_from_rss`
exhausts the list and raises (`"All RSS feeds failed"`). -/
theorem fetch_from_rss_all_dead (limit : Nat)
    (feeds : List (Option (List NewsArticle)))
    (h : ∀ f ∈ feeds, feedNoArticles limit f = true) :
    fetch_from_rss limit feeds = .error () := by
  induction feeds with
  | nil => rfl
  | cons f rest ih =>
    have hrest := ih (fun g hg => h g (List.mem_cons_of_mem _ hg))
    have hf := h f (List.mem_cons_self f rest)
    cases f with
    | none => simpa [fetch_from_rss] using hrest
    | some entries =>
      have he : (entries.take limit).isEmpty = true := by
        simpa [feedNoArticles] using hf
      simpa [fetch_from_rss, he] using hrest

/-- Articles returned by the NewsAPI block respect the page size. -/
theorem newsapiSection_ok_length (limit : Nat) (local_query : Option String)
    (localApi nationalApi : HttpResult) (articles : List NewsArticle)
    (h : newsapiSection limit local_query localApi nationalApi = .ok articles) :
    articles.length ≤ limit := by
  cases local_query with
  | none => exact fetch_from_newsapi_ok_length limit nationalApi articles h
  | some q =>
    unfold newsapiSection at h
    cases hl : fetch_local_news_from_newsapi limit localApi with
    | error e => simp [hl] at h
    | ok localArts =>
      rw [hl] at h
      by_cases hle : localArts.isEmpty
      · simp only [hle, if_true] at h
        exact fetch_from_newsapi_ok_length limit nationalApi articles h
      · simp only [hle, Bool.false_eq_true, if_false, Except.ok.injEq] at h
        subst h
        exact fetch_local_news_from_newsapi_ok_length limit localApi _ hl

/-- Articles returned by the RSS block respect the page size. -/
theorem rssSectionResult_ok_length (limit : Nat) (local_query : Option String)
    (localFeeds generalFeeds : List (Option (List NewsArticle)))
    (articles : List NewsArticle)
    (h : rssSectionResult limit local_query localFeeds generalFeeds = .ok articles) :
    articles.length ≤ limit := by
  cases local_query with
  | none => exact fetch_from_rss_ok_length limit generalFeeds articles h
  | some q =>
    unfold rssSectionResult at h
    cases hl : fetch_from_local_rss limit localFeeds with
    | error e => simp [hl] at h
    | ok localArts =>
      rw [hl] at h
      by_cases hle : localArts.isEmpty
      · simp only [hle, if_true] at h
        exact fetch_from_rss_ok_length limit generalFeeds articles h
      · simp only [hle, Bool.false_eq_true, if_false, Except.ok.injEq] at h
        subst h
        unfold fetch_from_local_rss at hl
        by_cases hfe : localFeeds.isEmpty
        · simp only [hfe, if_true, Except.ok.injEq] at hl
          subst hl
          simp
        · simp only [hfe, Bool.false_eq_true, if_false] at hl
          exact fetch_from_rss_ok_length limit localFeeds _ hl

/-- When every feed fails or yields zero articles, the whole RSS block
raises. -/
theorem rssSectionResult_all_dead (limit : Nat) (local_query : Option String)
    (localFeeds generalFeeds : List (Option (List NewsArticle)))
    (h1 : ∀ f ∈ localFeeds, feedNoArticles limit f = true)
    (h2 : ∀ f ∈ generalFeeds, feedNoArticles limit f = true) :
    rssSectionResult limit local_query localFeeds generalFeeds = .error () := by
  have hgen := fetch_from_rss_all_dead limit generalFeeds h2
  cases local_query with
  | none => exact hgen
  | some q =>
    unfold rssSectionResult fetch_from_local_rss
    by_cases hfe : localFeeds.isEmpty
    · simp [hfe, hgen]
    · simp [hfe, fetch_from_rss_all_dead limit localFeeds h1]

/-- C9 counterexample, two parts.  (1) At `limit = 0` with every source
failing, `get_headlines` returns the single synthetic fallback article, so
the returned sequence has length `1 > 0 = limit`, contradicting the
claim's "length at most limit" for every limit value.  (2) With an API
key configured and a 200 NewsAPI response carrying zero articles (every
other source failing), `get_headlines` returns the empty list, NOT the
single synthetic "service unavailable" article, contradicting the claim's
"when every source fails (or yields zero articles) it returns a single
synthetic article". -/
theorem get_headlines_counterexample :
    (get_headlines 0 Option.none false HttpResult.netError HttpResult.netError
      [] [] "now") = fallback_news "now" ∧
    (fallback_news "now").length = 1 ∧
    ¬((get_headlines 0 Option.none false HttpResult.netError HttpResult.netError
      [] [] "now").length ≤ 0) ∧
    get_headlines 5 Option.none true HttpResult.netError (HttpResult.success [])
      [Option.none, Option.none, Option.none]
      [Option.none, Option.none, Option.none] "now" = [] ∧
    ([] : List NewsArticle) ≠ fallback_news "now" := by
  refine ⟨rfl, rfl, by decide, rfl, by decide⟩

/-- C9 (amended): for every limit ≥ 1 the news fetch returns at most
`limit` articles; and it returns exactly the single synthetic
"service unavailable" article when the NewsAPI try-block raises (or no
API key is configured) and every RSS feed either fails or yields zero
articles.  (A 200 NewsAPI response whose articles all filter away is
returned as the empty list instead of the fallback — see the
counterexample — so the NewsAPI attempt must fail by raising for the
fallback to be reached.) -/
theorem get_headlines_spec (limit : Nat) (local_query : Option String)
    (has_api_key : Bool) (localApi nationalApi : HttpResult)
    (localFeeds generalFeeds : List (Option (List NewsArticle))) (now : String) :
    (1 ≤ limit →
      (get_headlines limit local_query has_api_key localApi nationalApi
        localFeeds generalFeeds now).length ≤ limit) ∧
    ((has_api_key = true →
        newsapiSection limit local_query localApi nationalApi = Except.error ()) →
      (∀ f ∈ localFeeds, feedNoArticles limit f = true) →
      (∀ f ∈ generalFeeds, feedNoArticles limit f = true) →
      get_headlines limit local_query has_api_key localApi nationalApi
        localFeeds generalFeeds now = fallback_news now) := by
  constructor
  · intro hl
    unfold get_headlines
    cases has_api_key with
    | false =>
      simp only [Bool.false_eq_true, if_false]
      cases hres : rssSectionResult limit local_query localFeeds generalFeeds with
      | ok a => exact rssSectionResult_ok_length _ _ _ _ _ hres
      | error e => simpa [fallback_news] using hl
    | true =>
      simp only [if_true]
      cases hapi : newsapiSection limit local_query localApi nationalApi with
      | ok a => exact newsapiSection_ok_length _ _ _ _ _ hapi
      | error e =>
        cases hres : rssSectionResult limit local_query localFeeds generalFeeds with
        | ok a => exact rssSectionResult_ok_length _ _ _ _ _ hres
        | error e2 => simpa [fallback_news] using hl
  · intro hapi h1 h2
    have hrss := rssSectionResult_all_dead limit local_query localFeeds generalFeeds h1 h2
    unfold get_headlines
    cases hk : has_api_key with
    | false => simp [hrss]
    | true => simp [hapi hk, hrss]

/-- Witness for C9's amended theorem: at `limit = 1`, a failing
configuration stays within the bound, and a configuration where the
NewsAPI block raises, one feed parses to zero articles and the other
fails outright returns exactly the fallback article. -/
theorem get_headlines_spec_witness :
    (get_headlines 1 Option.none false HttpResult.netError HttpResult.netError
      [] [] "now").length ≤ 1 ∧
    get_headlines 1 (some "queens") true HttpResult.netError HttpResult.netError
      [some []] [Option.none] "now" = fallback_news "now" :=
  ⟨(get_headlines_spec 1 Option.none false HttpResult.netError HttpResult.netError
      [] [] "now").1 (by decide),
   (get_headlines_spec 1 (some "queens") true HttpResult.netError HttpResult.netError
      [some []] [Option.none] "now").2 (fun _ => rfl) (by decide) (by decide)⟩

/-! ## `AIAgent.process_message` (`src/agent/base.py`)

`process_message` raises `ValueError` on a falsy or non-string message,
sets `status = "processing"`, and runs a `try` block that generates the
response, assembles the response dict and appends the turn to history,
setting `status = "idle"`; `except Exception` sets `status = "error"` and
returns `{content: <generic error reply>, type: "error", timestamp,
user_id}` without touching the history.  Everything that can raise inside
the `try` block up to and including response generation (follow-up
rewriting, the handler chain, metadata fetches) is abstracted into the
parameter `genResult`; the `metadata` key of the success dict is not
modelled.  A raised `ValueError` is `Except.error ()`. -/

/-- The agent's mutable per-request state: `self.status` and
`self.conversation_history`. -/
structure AgentState where
  status : String
  history : List HistoryEntry
deriving DecidableEq, Repr

/-- The response dict of `process_message` (`type` is spelled `rtype`). -/
structure ResponseDict where
  content : String
  rtype : String
  timestamp : String
  user_id : String
deriving DecidableEq, Repr

/-- The generic error reply of `process_message`'s `except` branch. -/
def error_reply : String :=
  "I encountered an error processing your message. Please try again."

/-- `AIAgent.process_message`, returning the new agent state together with
the response dict (or `Except.error ()` for the initial `ValueError`). -/
def process_message (max_history : Nat) (st : AgentState)
    (genResult : Except Unit String) (message user_id ts : String) :
    Except Unit (AgentState × ResponseDict) :=
  if message.isEmpty then .error ()
  else
    match genResult with
    | .ok content =>
      .ok ({ status := "idle",
             history := dequeAppend max_history st.history
               { timestamp := ts, user_id := user_id,
                 message := message, response := content } },
           { content := content, rtype := "chat", timestamp := ts,
             user_id := user_id })
    | .error _ =>
      .ok ({ status := "error", history := st.history },
           { content := error_reply, rtype := "error", timestamp := ts,
             user_id := user_id })

/-- C10: when response generation raises after input validation has passed
(non-empty message), `process_message` returns a dict whose `type` is
`"error"` and whose content is the generic error reply, sets the agent's
status to `"error"`, and leaves the conversation history unchanged — the
failed turn is never appended. -/
theorem process_message_error_path (max_history : Nat) (st : AgentState)
    (message user_id ts : String) (h : message.isEmpty = false) :
    process_message max_history st (Except.error ()) message user_id ts =
      Except.ok ({ status := "error", history := st.history },
        { content := error_reply, rtype := "error", timestamp := ts,
          user_id := user_id }) := by
  unfold process_message
  simp [h]

/-- Witness for C10 at a concrete failing turn: the history keeps exactly
its previous single entry and the error dict is returned. -/
theorem process_message_error_path_witness :
    process_message 10 { status := "idle", history := [entryAlice] }
      (Except.error ()) "tell me a joke" "alice" "t1" =
      Except.ok ({ status := "error", history := [entryAlice] },
        { content := error_reply, rtype := "error", timestamp := "t1",
          user_id := "alice" }) :=
  process_message_error_path 10 { status := "idle", history := [entryAlice] }
    "tell me a joke" "alice" "t1" (by decide)
